import Mathlib

set_option maxHeartbeats 1000000

/-! Verification development for the Instagram data pipeline
(src/instagram_data_pipeline.py).  The Python source is shallowly
embedded: datetimes become integers (seconds), MongoDB documents become
structures, the lazy scraping streams become lists of the items they
yield before any failure, and the external collaborators (HTTP fetch,
completion service, profile source) become explicit oracle functions.
Exceptions raised by Python code are modelled with Except / Option and
with explicit control-flow in the embedded functions, mirroring the
try/except structure of the source. -/

namespace Pipeline

/-- Tunable constants of the source, lines 38-44. -/
def MAX_POSTS_ANALYSIS : Nat := 9

/-- Day window for recent posts (source line 39). -/
def MAX_DAYS_ANALYSIS : Nat := 15

/-- Cap on images in the account-level prompt (source line 40). -/
def MAX_IMAGES_ACCOUNT_PROMPT : Nat := 5

/-- Cap on images per post (source line 41). -/
def MAX_IMAGES_POST_PROMPT : Nat := 3

/-- Cap on comments analysed (source line 42). -/
def MAX_COMMENTS_ANALYSIS : Nat := 50

/-- Suggestion count for the account prompt (source line 43). -/
def ACCOUNT_SUGGESTIONS_COUNT : Nat := 3

/-- Suggestion count for the post prompt (source line 44). -/
def POST_SUGGESTIONS_COUNT : Nat := 3

/-- A datetime.timedelta(days := d) added to a timestamp in seconds. -/
def timedeltaDays (d : Nat) : Int := (d : Int) * 86400

/-- A datetime.timedelta(hours := h) added to a timestamp in seconds. -/
def timedeltaHours (h : Nat) : Int := (h : Int) * 3600

/-- An embedded comment document, as built at source lines 113-118. -/
structure CommentDoc where
  id : Nat
  text : String
  author : String
  date : Int
deriving DecidableEq

/-- A post document as stored in the posts collection (source lines
95-107) and as read back by the analysis pass (line 200).  The date
field is an Option because the analysis pass probes it with
post.get("date") and guards for a missing or null value (line 205). -/
structure StoredPost where
  mongoId : Nat
  accountUsername : String
  url : String
  mediaType : String
  caption : Option String
  date : Option Int
  likes : Nat
  commentsCount : Nat
  comments : List CommentDoc
  images : List String
  postExtractionDate : Int
deriving DecidableEq

/-- The date of a stored post, defaulting to 0; only used under the
hypothesis that the date is present. -/
def dateD (p : StoredPost) : Int := p.date.getD 0

/-- The truthiness test of source line 205:
post.get("date") and post["date"] >= days_ago.  A missing/null date is
falsy, so it never counts as within the window. -/
def dateWithinB (daysAgo : Int) (post : StoredPost) : Bool :=
  match post.date with
  | some d => daysAgo ≤ d
  | none => false

/-- The analysis-pass selection loop, source lines 203-210: a post
within the window is appended; otherwise it is appended only while
fewer than MAX_POSTS_ANALYSIS posts are selected; otherwise the loop
breaks. -/
def selectLoop (daysAgo : Int) (posts : List StoredPost) :
    List StoredPost → List StoredPost
  | [] => posts
  | post :: rest =>
    if dateWithinB daysAgo post then
      selectLoop daysAgo (posts ++ [post]) rest
    else if posts.length < MAX_POSTS_ANALYSIS then
      selectLoop daysAgo (posts ++ [post]) rest
    else
      posts

/-- The selected posts of the analysis pass, starting from the empty
accumulator as in source line 203. -/
def selectedPosts (allPosts : List StoredPost) (daysAgo : Int) :
    List StoredPost :=
  selectLoop daysAgo [] allPosts

/-- days_ago as computed at source line 201 from the analysis date. -/
def daysAgoOf (analysisDate : Int) : Int :=
  analysisDate - timedeltaDays MAX_DAYS_ANALYSIS

/-- A concrete stored post with default metadata, for witnesses. -/
def mkStored (i : Nat) (d : Option Int) (imgs : List String)
    (cs : List CommentDoc) : StoredPost :=
  { mongoId := i
    accountUsername := "alice"
    url := "https://www.instagram.com/p/x/"
    mediaType := "image"
    caption := some "cap"
    date := d
    likes := 1
    commentsCount := cs.length
    comments := cs
    images := imgs
    postExtractionDate := 0 }

/-- A concrete time-descending post list for the C1 witness. -/
def c1posts : List StoredPost :=
  [mkStored 1 (some 1900000) [] [], mkStored 2 (some 500000) [] [],
   mkStored 3 (some 400000) [] []]

/-- A stored post with a missing date, for the C10 witness. -/
def c10post : StoredPost := mkStored 4 none [] []

/-- A raw scraped comment, as yielded by post.get_comments().  The
try/except at source lines 109-120 swallows a failure of the comments
stream, keeping the comments gathered so far, so a run of that stream
is represented by the list of items it yields before any failure. -/
structure RawComment where
  id : Nat
  text : String
  ownerUsername : String
  createdAtUtc : Int
deriving DecidableEq

/-- A raw scraped post, as yielded by profile.get_posts().  The field
sidecarUrls holds the display urls yielded by get_sidecar_nodes()
before any failure (the try/except at lines 88-92 keeps the partial
list); commentsYielded holds the comments yielded by get_comments()
before any failure. -/
structure RawPost where
  mediaid : Nat
  shortcode : String
  typename : String
  isVideo : Bool
  caption : Option String
  dateUtc : Int
  likes : Nat
  commentsTotal : Nat
  url : String
  sidecarUrls : List String
  commentsYielded : List RawComment
deriving DecidableEq

/-- A raw story item, as yielded by story.get_items() inside
L.get_stories (source lines 130-146), flattened across stories.  A
failure of the stories stream is swallowed by the try/except at lines
129-148 keeping the items gathered so far, so a run is represented by
the list of items yielded before any failure. -/
structure RawStoryItem where
  mediaid : Nat
  isVideo : Bool
  url : String
  dateUtc : Int
deriving DecidableEq

/-- A raw scraped profile.  posts are the items yielded by
profile.get_posts() before any failure of that stream; postsErr records
whether the stream raises after yielding them (the posts loop has no
local try/except, so such a failure propagates to the handler at
source line 150). -/
structure RawProfile where
  username : String
  fullName : String
  biography : String
  profilePicUrl : String
  followers : Nat
  followees : Nat
  isVerified : Bool
  isPrivate : Bool
  externalUrl : Option String
  posts : List RawPost
  postsErr : Bool
  stories : List RawStoryItem
deriving DecidableEq

/-- The account document built at source lines 61-73. -/
structure AccountDoc where
  username : String
  fullName : String
  biography : String
  profilePicUrl : String
  followers : Nat
  followees : Nat
  isVerified : Bool
  isPrivate : Bool
  externalUrl : Option String
  accountExtractionDate : Int
deriving DecidableEq

/-- The story document built at source lines 132-142. -/
structure StoryDoc where
  mongoId : Nat
  accountUsername : String
  mediaType : String
  mediaUrl : String
  publicationDate : Int
  expirationDate : Int
  viewCount : Option Nat
  interactions : List String
  storyExtractionDate : Int
deriving DecidableEq

/-- The extraction summary of source line 55. -/
structure Summary where
  account : Option AccountDoc
  posts : List StoredPost
  stories : List StoryDoc
deriving DecidableEq

/-- The account document of a profile (source lines 61-73). -/
def accountDocOf (profile : RawProfile) (extractionDate : Int) : AccountDoc :=
  { username := profile.username
    fullName := profile.fullName
    biography := profile.biography
    profilePicUrl := profile.profilePicUrl
    followers := profile.followers
    followees := profile.followees
    isVerified := profile.isVerified
    isPrivate := profile.isPrivate
    externalUrl := profile.externalUrl
    accountExtractionDate := extractionDate }

/-- The images gathered at source lines 86-94: sidecar display urls
for a GraphSidecar post, otherwise the single post url. -/
def buildImages (p : RawPost) : List String :=
  if p.typename = "GraphSidecar" then p.sidecarUrls else [p.url]

/-- The embedded comment shape of source lines 113-118. -/
def commentDocOf (c : RawComment) : CommentDoc :=
  { id := c.id, text := c.text, author := c.ownerUsername,
    date := c.createdAtUtc }

/-- The comment-embedding loop of source lines 110-118: stop once
MAX_COMMENTS_ANALYSIS comments are embedded. -/
def commentsLoop (acc : List CommentDoc) : List RawComment → List CommentDoc
  | [] => acc
  | c :: rest =>
    if MAX_COMMENTS_ANALYSIS ≤ acc.length then acc
    else commentsLoop (acc ++ [commentDocOf c]) rest

/-- The post document built at source lines 95-120 from one raw post. -/
def postDoc (username : String) (extractionDate : Int) (p : RawPost) :
    StoredPost :=
  { mongoId := p.mediaid
    accountUsername := username
    url := "https://www.instagram.com/p/" ++ p.shortcode ++ "/"
    mediaType := if p.isVideo then "video" else "image"
    caption := p.caption
    date := some p.dateUtc
    likes := p.likes
    commentsCount := p.commentsTotal
    comments := commentsLoop [] p.commentsYielded
    images := (buildImages p).take MAX_IMAGES_POST_PROMPT
    postExtractionDate := extractionDate }

/-- The extraction-pass post loop of source lines 83-125: it breaks
only when the post is older than the window AND at least
MAX_POSTS_ANALYSIS posts have already been added; otherwise the post
document is built, persisted and appended to the summary. -/
def extractPostsLoop (username : String) (extractionDate daysAgo : Int)
    (added : Nat) : List RawPost → List StoredPost
  | [] => []
  | p :: rest =>
    if p.dateUtc < daysAgo ∧ MAX_POSTS_ANALYSIS ≤ added then []
    else
      postDoc username extractionDate p ::
        extractPostsLoop username extractionDate daysAgo (added + 1) rest

/-- Whether the extraction-pass post loop hits its break before
exhausting the yielded posts; if it does not, a failure of the posts
stream after the yielded items is observed by the loop. -/
def extractBreaks (daysAgo : Int) (added : Nat) : List RawPost → Bool
  | [] => false
  | p :: rest =>
    if p.dateUtc < daysAgo ∧ MAX_POSTS_ANALYSIS ≤ added then true
    else extractBreaks daysAgo (added + 1) rest

/-- The story document built at source lines 132-142. -/
def storyDocOf (username : String) (extractionDate : Int)
    (it : RawStoryItem) : StoryDoc :=
  { mongoId := it.mediaid
    accountUsername := username
    mediaType := if it.isVideo then "video" else "image"
    mediaUrl := it.url
    publicationDate := it.dateUtc
    expirationDate := it.dateUtc + timedeltaHours 24
    viewCount := none
    interactions := []
    storyExtractionDate := extractionDate }

/-- get_and_save_instagram_data, source lines 46-153.  A failed
profile lookup is the none case (the handler at line 150 returns the
initial summary).  If the posts stream raises after its yielded items
and the posts loop has not already broken, the exception propagates to
the same line-150 handler: the posts gathered so far stay in the
summary, but the stories section is never reached. -/
def getAndSave (profileResult : Option RawProfile) (extractionDate : Int) :
    Summary :=
  match profileResult with
  | none => { account := none, posts := [], stories := [] }
  | some profile =>
    let accountDoc := accountDocOf profile extractionDate
    let daysAgo := extractionDate - timedeltaDays MAX_DAYS_ANALYSIS
    let posts := extractPostsLoop profile.username extractionDate daysAgo 0
      profile.posts
    if profile.postsErr && !(extractBreaks daysAgo 0 profile.posts) then
      { account := some accountDoc, posts := posts, stories := [] }
    else
      { account := some accountDoc, posts := posts,
        stories := profile.stories.map (storyDocOf profile.username extractionDate) }

/-- A concrete raw post, for witnesses. -/
def mkRaw (i : Nat) (d : Int) : RawPost :=
  { mediaid := i
    shortcode := "sc"
    typename := "GraphImage"
    isVideo := false
    caption := some "c"
    dateUtc := d
    likes := 2
    commentsTotal := 0
    url := "https://img.example/a.jpg"
    sidecarUrls := []
    commentsYielded := [] }

/-- A concrete time-descending raw post list for the C2 witness. -/
def c2raws : List RawPost := [mkRaw 1 100, mkRaw 2 50]

/-- A raw post recent enough to be inside the window at extraction
time 1000000, for the C3 scenario. -/
def c3post : RawPost := mkRaw 1 999000

/-- A raw story item available during the C3 scenario. -/
def c3story : RawStoryItem :=
  { mediaid := 7, isVideo := false, url := "https://img.example/s.jpg",
    dateUtc := 999000 }

/-- A profile whose posts stream fails after yielding one in-window
post, while a story is available. -/
def c3profile : RawProfile :=
  { username := "alice"
    fullName := "Alice A"
    biography := "bio"
    profilePicUrl := "https://img.example/p.jpg"
    followers := 10
    followees := 5
    isVerified := false
    isPrivate := false
    externalUrl := none
    posts := [c3post]
    postsErr := true
    stories := [c3story] }

/-- A raw post with five sidecar images and many comments, exceeding
both caps, for the C5 witness. -/
def c5raw : RawPost :=
  { mediaid := 9
    shortcode := "zz"
    typename := "GraphSidecar"
    isVideo := false
    caption := some "big"
    dateUtc := 999000
    likes := 4
    commentsTotal := 60
    url := "https://img.example/z.jpg"
    sidecarUrls := ["u1", "u2", "u3", "u4", "u5"]
    commentsYielded := (List.range 60).map
      (fun i => { id := i, text := "t", ownerUsername := "o", createdAtUtc := 0 }) }

/-- A profile yielding the oversized raw post, for the C5 witness. -/
def c5profile : RawProfile :=
  { username := "alice"
    fullName := "Alice A"
    biography := "bio"
    profilePicUrl := "https://img.example/p.jpg"
    followers := 10
    followees := 5
    isVerified := false
    isPrivate := false
    externalUrl := none
    posts := [c5raw]
    postsErr := false
    stories := [] }

/-- The body of download_images, source lines 159-170: for each url
the HTTP fetch plus temporary-file write is modelled by the oracle
fetch, which returns the local path on success and none on any
failure; a failure is caught at line 168 (printed) and the loop
continues with the next url. -/
def downloadLoop (fetch : String → Option String) (localPaths : List String) :
    List String → List String
  | [] => localPaths
  | url :: rest =>
    match fetch url with
    | some path => downloadLoop fetch (localPaths ++ [path]) rest
    | none => downloadLoop fetch localPaths rest

/-- download_images, source lines 155-170. -/
def download_images (fetch : String → Option String)
    (image_urls : List String) : List String :=
  downloadLoop fetch [] image_urls

/-- str() of an optional text, as a Python f-string renders it. -/
def optStr : Option String → String
  | none => "None"
  | some s => s

/-- The account-level prompt of source lines 224-232. -/
def accountPromptText (account : AccountDoc)
    (postsCount storiesCount : Nat) : String :=
  "Instagram account analysis:\n" ++
  "Bio: " ++ account.biography ++ "\n" ++
  "Followers: " ++ toString account.followers ++ "\n" ++
  "Posts (last " ++ toString MAX_DAYS_ANALYSIS ++ " days or last " ++
  toString MAX_POSTS_ANALYSIS ++ "): " ++ toString postsCount ++ "\n" ++
  "Stories: " ++ toString storiesCount ++ "\n" ++
  "Evaluate the consistency and effectiveness of the bio and the overall use of Posts and Stories. " ++
  "Suggest " ++ toString ACCOUNT_SUGGESTIONS_COUNT ++ " key improvements."

/-- The per-post prompt of source lines 245-251. -/
def postPrompt (post : StoredPost) : String :=
  "Instagram post analysis:\n" ++
  "Caption: " ++ optStr post.caption ++ "\n" ++
  "Likes: " ++ toString post.likes ++ "\n" ++
  "Comments: " ++ toString post.commentsCount ++ "\n" ++
  "How effective is this post? Suggest " ++ toString POST_SUGGESTIONS_COUNT ++
  " ways to improve engagement for future posts with similar themes."

/-- The comment-level prompt of source lines 273-277. -/
def commentPromptText (comments : List String) : String :=
  "Analyze the overall sentiment of these post comments:\n" ++
  toString comments ++ "\n" ++
  "Are there recurring themes or audience questions that the account could address better?"

/-- One try/except around a completion-service call (source lines
233-239, 252-266 and 278-282): the response text on success, the
error-marker string otherwise. -/
def tierResult (r : Except String String) : String :=
  match r with
  | Except.ok t => t
  | Except.error e => "Error: " ++ e

/-- One entry of the content_level list (source lines 256-266). -/
structure ContentEntry where
  entryType : String
  id : Nat
  suggestion : String
deriving DecidableEq

/-- The entry appended for one selected post: its own capped images
are downloaded, the completion service is called, and the suggestion
text or the error marker is recorded with the post id (source lines
242-266). -/
def contentEntryOf (gen : String → List String → Except String String)
    (fetch : String → Option String) (post : StoredPost) : ContentEntry :=
  { entryType := "post"
    id := post.mongoId
    suggestion := tierResult (gen (postPrompt post)
      (download_images fetch (post.images.take MAX_IMAGES_POST_PROMPT))) }

/-- The per-post content loop of source lines 242-266; both the try
and the except branch append exactly one entry, so the loop never
aborts early. -/
def contentLoop (gen : String → List String → Except String String)
    (fetch : String → Option String) (report : List ContentEntry) :
    List StoredPost → List ContentEntry
  | [] => report
  | post :: rest =>
    contentLoop gen fetch (report ++ [contentEntryOf gen fetch post]) rest

/-- The flattened comment texts of the selected posts, source lines
269-271. -/
def allCommentTexts (posts : List StoredPost) : List String :=
  posts.foldl (fun acc p => acc ++ p.comments.map (fun c => c.text)) []

/-- The flattened, capped image urls for the account prompt, source
lines 218-221. -/
def imagesForPrompt (posts : List StoredPost) : List String :=
  (posts.foldl (fun acc p => acc ++ p.images) []).take MAX_IMAGES_ACCOUNT_PROMPT

/-- The document-store contents the analysis pass reads (source lines
195-211): the result of find_one on the accounts collection, the
date-descending find on the posts collection, and the find on the
stories collection. -/
structure Store where
  account : Option AccountDoc
  allPosts : List StoredPost
  stories : List StoryDoc

/-- The analysis report of source lines 186-192. -/
structure AnalysisReport where
  username : String
  analysisDate : Int
  accountLevel : Option String
  contentLevel : List ContentEntry
  commentLevel : Option String
deriving DecidableEq

/-- analyze_suggest_and_save_instagram, source lines 174-292.  gen is
the completion-service oracle (prompt text and asset handles to
response or failure) and fetch the image-fetch oracle.  When no
account document exists, account.get at source line 226 dereferences
None and raises an AttributeError that no handler catches, so the pass
terminates exceptionally: the error case.  Otherwise each tier records
its response text or its error marker and the report is returned (and
upserted, line 286). -/
def analyze (gen : String → List String → Except String String)
    (fetch : String → Option String) (analyzedUsername : String)
    (analysisDate : Int) (store : Store) : Except String AnalysisReport :=
  let daysAgo := daysAgoOf analysisDate
  let posts := selectedPosts store.allPosts daysAgo
  let stories := store.stories
  let localAccountImages := download_images fetch (imagesForPrompt posts)
  match store.account with
  | none => Except.error "AttributeError: NoneType object has no attribute get"
  | some account =>
    let accountLevel := some (tierResult
      (gen (accountPromptText account posts.length stories.length)
        localAccountImages))
    let contentLevel := contentLoop gen fetch [] posts
    let comments := allCommentTexts posts
    let commentLevel :=
      if comments.isEmpty then none
      else some (tierResult
        (gen (commentPromptText (comments.take MAX_COMMENTS_ANALYSIS)) []))
    Except.ok
      { username := analyzedUsername
        analysisDate := analysisDate
        accountLevel := accountLevel
        contentLevel := contentLevel
        commentLevel := commentLevel }

/-- A concrete account document, for analysis-pass witnesses. -/
def sampleAccount : AccountDoc :=
  { username := "alice"
    fullName := "Alice A"
    biography := "bio"
    profilePicUrl := "https://img.example/p.jpg"
    followers := 10
    followees := 5
    isVerified := false
    isPrivate := false
    externalUrl := none
    accountExtractionDate := 0 }

/-- A concrete store with an account document and one stored post
that has one image and one comment, for analysis-pass witnesses. -/
def c4store : Store :=
  { account := some sampleAccount
    allPosts := [mkStored 1 (some 999000) ["https://img.example/a.jpg"]
      [{ id := 1, text := "hey", author := "bob", date := 0 }]]
    stories := [] }

/-- The completion oracle that always fails, for witnesses. -/
def genBoom : String → List String → Except String String :=
  fun _ _ => Except.error "boom"

/-- The completion oracle that always succeeds, for witnesses. -/
def genOkay : String → List String → Except String String :=
  fun _ _ => Except.ok "fine"

/-- The fetch oracle on which every reference fails, for witnesses. -/
def fetchNone : String → Option String := fun _ => none

/-- The store of a username for which no data was ever extracted. -/
def emptyStore : Store := { account := none, allPosts := [], stories := [] }

/-- The temporary-file state of a run: a fresh-name counter and the
list of temporary files currently existing on disk.
NamedTemporaryFile with delete := False (source line 165) creates a
file that persists until something removes it. -/
structure FS where
  counter : Nat
  files : List Nat
deriving DecidableEq

/-- download_images with its temporary-file effect made explicit: for
each url whose fetch succeeds a NamedTemporaryFile(delete := False) is
created — its name is the fresh counter value — and that name is
returned as the handle; no path of the function removes a file. -/
def downloadImagesFS (ok : String → Bool) : FS → List String → FS × List Nat
  | fs, [] => (fs, [])
  | fs, url :: rest =>
    if ok url then
      let out := downloadImagesFS ok
        { counter := fs.counter + 1, files := fs.files ++ [fs.counter] } rest
      (out.fst, fs.counter :: out.snd)
    else downloadImagesFS ok fs rest

/-- The temporary-file effect of analyze_suggest_and_save_instagram:
the account-tier images are downloaded first (source line 222), then
the per-post loop downloads each selected post's capped images (line
244).  The completion-service calls touch no files and their
exceptions are caught (lines 233-239, 252-266); the function has no
cleanup on any path, so the file state only grows.  Returns the final
file state and the pass outcome; the error case is the uncaught
AttributeError of source line 226 when no account document exists. -/
def analyzeFS (ok : String → Bool) (analysisDate : Int) (store : Store)
    (fs : FS) : FS × Except String Unit :=
  let posts := selectedPosts store.allPosts (daysAgoOf analysisDate)
  let fs1 := (downloadImagesFS ok fs (imagesForPrompt posts)).fst
  match store.account with
  | none =>
    (fs1, Except.error "AttributeError: NoneType object has no attribute get")
  | some _ =>
    let fs2 := posts.foldl
      (fun s p =>
        (downloadImagesFS ok s (p.images.take MAX_IMAGES_POST_PROMPT)).fst) fs1
    (fs2, Except.ok ())

/-- The fetch oracle on which every reference succeeds. -/
def okAll : String → Bool := fun _ => true

/-- While every head post is within the window, the selection loop
appends them all to the accumulator. -/
theorem selectLoop_within (daysAgo : Int) :
    ∀ (A : List StoredPost), (∀ p ∈ A, dateWithinB daysAgo p = true) →
    ∀ (B acc : List StoredPost),
      selectLoop daysAgo acc (A ++ B) = selectLoop daysAgo (acc ++ A) B := by
  intro A
  induction A with
  | nil => intro _ B acc; simp
  | cons a A ih =>
    intro hA B acc
    have ha : dateWithinB daysAgo a = true := hA a (List.mem_cons_self a A)
    have hrec := ih (fun p hp => hA p (List.mem_cons_of_mem a hp)) B (acc ++ [a])
    simp only [List.cons_append, selectLoop, ha, if_true, List.append_eq]
    rw [hrec]
    congr 1
    simp

/-- On a suffix in which no post is within the window, the selection
loop takes posts only up to the MAX_POSTS_ANALYSIS floor. -/
theorem selectLoop_outside (daysAgo : Int) :
    ∀ (B : List StoredPost), (∀ p ∈ B, dateWithinB daysAgo p = false) →
    ∀ (acc : List StoredPost),
      selectLoop daysAgo acc B =
        acc ++ B.take (MAX_POSTS_ANALYSIS - acc.length) := by
  intro B
  induction B with
  | nil => intro _ acc; simp [selectLoop]
  | cons b B ih =>
    intro hB acc
    have hb : dateWithinB daysAgo b = false := hB b (List.mem_cons_self b B)
    by_cases hlen : acc.length < MAX_POSTS_ANALYSIS
    · have hrec := ih (fun p hp => hB p (List.mem_cons_of_mem b hp)) (acc ++ [b])
      simp only [selectLoop, hb, Bool.false_eq_true, if_false, hlen, if_true]
      rw [hrec]
      have hM : MAX_POSTS_ANALYSIS - acc.length =
          (MAX_POSTS_ANALYSIS - (acc ++ [b]).length) + 1 := by
        simp only [List.length_append, List.length_cons, List.length_nil]
        omega
      rw [hM, List.take_succ_cons]
      simp
    · simp only [selectLoop, hb, Bool.false_eq_true, if_false, hlen]
      have hM : MAX_POSTS_ANALYSIS - acc.length = 0 := by omega
      simp [hM]

/-- On a date-descending list whose posts all carry a date, every post
left after dropping the within-window ones lies outside the window. -/
theorem dropWhile_not_within (daysAgo : Int) :
    ∀ (l : List StoredPost), (∀ p ∈ l, p.date ≠ none) →
      List.Pairwise (fun a b => dateD b ≤ dateD a) l →
      ∀ p ∈ l.dropWhile (fun q => dateWithinB daysAgo q),
        dateWithinB daysAgo p = false := by
  intro l
  induction l with
  | nil => simp
  | cons a t ih =>
    intro hd hs
    rcases List.pairwise_cons.mp hs with ⟨hrel, hs'⟩
    rw [List.dropWhile_cons]
    cases ha : dateWithinB daysAgo a with
    | true =>
      rw [if_pos rfl]
      exact ih (fun p hp => hd p (List.mem_cons_of_mem a hp)) hs'
    | false =>
      rw [if_neg (by simp)]
      intro p hp
      rcases List.mem_cons.mp hp with rfl | hpt
      · exact ha
      · obtain ⟨da, hda⟩ := Option.ne_none_iff_exists'.mp (hd a (List.mem_cons_self a t))
        obtain ⟨dp, hdp⟩ :=
          Option.ne_none_iff_exists'.mp (hd p (List.mem_cons_of_mem a hpt))
        have hlt : ¬ daysAgo ≤ da := by
          simpa [dateWithinB, hda] using ha
        have hle : dateD p ≤ dateD a := hrel p hpt
        rw [dateD, dateD, hda, hdp] at hle
        simp only [Option.getD_some] at hle
        simp only [dateWithinB, hdp, decide_eq_false_iff_not]
        omega

/-- Claim C1: for every sequence of posts sorted in descending
publication time (all dates present), a now timestamp and a window of
W days, with the source's configured floor MAX_POSTS_ANALYSIS, the
analysis-pass selector returns exactly the posts within the window
plus, when those number fewer than the floor, the next-most-recent
older posts until the floor is reached or the input is exhausted; the
output is a subsequence of the input in the same descending order, its
length is at least min(floor, total posts), and empty input yields
empty output. -/
theorem c1_windowing_selector (allPosts : List StoredPost) (now : Int) (W : Nat)
    (hdates : ∀ p ∈ allPosts, p.date ≠ none)
    (hsorted : List.Pairwise (fun a b => dateD b ≤ dateD a) allPosts) :
    selectedPosts allPosts (now - timedeltaDays W) =
        allPosts.filter (fun p => dateWithinB (now - timedeltaDays W) p) ++
          (allPosts.filter (fun p => ! dateWithinB (now - timedeltaDays W) p)).take
            (MAX_POSTS_ANALYSIS -
              (allPosts.filter (fun p => dateWithinB (now - timedeltaDays W) p)).length) ∧
      (selectedPosts allPosts (now - timedeltaDays W)).Sublist allPosts ∧
      List.Pairwise (fun a b => dateD b ≤ dateD a)
        (selectedPosts allPosts (now - timedeltaDays W)) ∧
      min MAX_POSTS_ANALYSIS allPosts.length ≤
        (selectedPosts allPosts (now - timedeltaDays W)).length ∧
      (allPosts = [] → selectedPosts allPosts (now - timedeltaDays W) = []) := by
  set dAgo := now - timedeltaDays W with hdAgo
  have hsplit :
      allPosts.takeWhile (fun p => dateWithinB dAgo p) ++
        allPosts.dropWhile (fun p => dateWithinB dAgo p) = allPosts :=
    List.takeWhile_append_dropWhile (fun p => dateWithinB dAgo p) allPosts
  set A := allPosts.takeWhile (fun p => dateWithinB dAgo p) with hAdef
  set B := allPosts.dropWhile (fun p => dateWithinB dAgo p) with hBdef
  have hA : ∀ p ∈ A, dateWithinB dAgo p = true := fun p hp =>
    List.mem_takeWhile_imp hp
  have hB : ∀ p ∈ B, dateWithinB dAgo p = false :=
    dropWhile_not_within dAgo allPosts hdates hsorted
  have hsel : selectedPosts allPosts dAgo =
      A ++ B.take (MAX_POSTS_ANALYSIS - A.length) := by
    rw [selectedPosts, ← hsplit, selectLoop_within dAgo A hA B [],
      List.nil_append, selectLoop_outside dAgo B hB A]
  have hfT : allPosts.filter (fun p => dateWithinB dAgo p) = A := by
    rw [← hsplit, List.filter_append, List.filter_eq_self.mpr hA,
      List.filter_eq_nil_iff.mpr (fun a ha => by simp [hB a ha]), List.append_nil]
  have hfF : allPosts.filter (fun p => ! dateWithinB dAgo p) = B := by
    rw [← hsplit, List.filter_append,
      List.filter_eq_nil_iff.mpr (fun a ha => by simp [hA a ha]),
      List.filter_eq_self.mpr (fun a ha => by simp [hB a ha]), List.nil_append]
  have hsub : (selectedPosts allPosts dAgo).Sublist allPosts := by
    rw [hsel, ← hsplit]
    exact (List.take_sublist _ B).append_left A
  have hpw : List.Pairwise (fun a b => dateD b ≤ dateD a)
      (selectedPosts allPosts dAgo) :=
    List.Pairwise.sublist hsub hsorted
  have hlen : min MAX_POSTS_ANALYSIS allPosts.length ≤
      (selectedPosts allPosts dAgo).length := by
    rw [hsel, ← hsplit]
    simp only [List.length_append, List.length_take]
    omega
  have hemp : allPosts = [] → selectedPosts allPosts dAgo = [] := by
    intro h
    rw [h]
    rfl
  refine ⟨?_, hsub, hpw, hlen, hemp⟩
  rw [hfT, hfF]
  exact hsel

/-- Witness for c1_windowing_selector at a concrete sorted input with
one in-window post and two older posts. -/
theorem c1_windowing_selector_witness :
    (∀ p ∈ c1posts, p.date ≠ none) ∧
    List.Pairwise (fun a b => dateD b ≤ dateD a) c1posts ∧
    (selectedPosts c1posts (2000000 - timedeltaDays 15) =
        c1posts.filter (fun p => dateWithinB (2000000 - timedeltaDays 15) p) ++
          (c1posts.filter
              (fun p => ! dateWithinB (2000000 - timedeltaDays 15) p)).take
            (MAX_POSTS_ANALYSIS -
              (c1posts.filter
                (fun p => dateWithinB (2000000 - timedeltaDays 15) p)).length) ∧
      (selectedPosts c1posts (2000000 - timedeltaDays 15)).Sublist c1posts ∧
      List.Pairwise (fun a b => dateD b ≤ dateD a)
        (selectedPosts c1posts (2000000 - timedeltaDays 15)) ∧
      min MAX_POSTS_ANALYSIS c1posts.length ≤
        (selectedPosts c1posts (2000000 - timedeltaDays 15)).length ∧
      (c1posts = [] →
        selectedPosts c1posts (2000000 - timedeltaDays 15) = [])) :=
  ⟨by decide, by decide,
    c1_windowing_selector c1posts 2000000 15 (by decide) (by decide)⟩

/-- Claim C10: in the analysis-pass selection, a stored post whose
date field is missing or null is never treated as within the recency
window, whatever the window bound; it is selected exactly while fewer
than MAX_POSTS_ANALYSIS posts have been selected so far, and when
selected it is appended to the selection, counting toward that
floor. -/
theorem c10_null_date_floor (daysAgo : Int) (acc : List StoredPost)
    (p : StoredPost) (rest : List StoredPost) (hnone : p.date = none) :
    dateWithinB daysAgo p = false ∧
    selectLoop daysAgo acc (p :: rest) =
      (if acc.length < MAX_POSTS_ANALYSIS then
        selectLoop daysAgo (acc ++ [p]) rest
      else acc) := by
  have hw : dateWithinB daysAgo p = false := by simp [dateWithinB, hnone]
  refine ⟨hw, ?_⟩
  simp only [selectLoop, hw, Bool.false_eq_true, if_false]

/-- Witness for c10_null_date_floor at a concrete post with no date. -/
theorem c10_null_date_floor_witness :
    c10post.date = none ∧
    (dateWithinB 0 c10post = false ∧
      selectLoop 0 [] (c10post :: []) =
        (if ([] : List StoredPost).length < MAX_POSTS_ANALYSIS then
          selectLoop 0 ([] ++ [c10post]) []
        else [])) :=
  ⟨rfl, c10_null_date_floor 0 [] c10post [] rfl⟩

/-- Accumulator/counter invariant tying the two passes together: the
analysis-pass selection loop, run over the normalized documents of a
list of raw posts, produces the accumulator followed by exactly the
documents the extraction-pass loop selects, when the counter equals
the accumulator length. -/
theorem selectLoop_map_postDoc (username : String) (T daysAgo : Int) :
    ∀ (raws : List RawPost) (acc : List StoredPost),
      selectLoop daysAgo acc (raws.map (postDoc username T)) =
        acc ++ extractPostsLoop username T daysAgo acc.length raws := by
  intro raws
  induction raws with
  | nil => intro acc; simp [selectLoop, extractPostsLoop]
  | cons p raws ih =>
    intro acc
    by_cases hin : daysAgo ≤ p.dateUtc
    · have hw : dateWithinB daysAgo (postDoc username T p) = true := by
        simp [dateWithinB, postDoc, hin]
      have hcond : ¬ (p.dateUtc < daysAgo ∧ MAX_POSTS_ANALYSIS ≤ acc.length) := by
        omega
      simp only [List.map_cons, selectLoop, hw, if_true, extractPostsLoop,
        if_neg hcond]
      rw [ih]
      simp
    · have hw : dateWithinB daysAgo (postDoc username T p) = false := by
        simp only [dateWithinB, postDoc, decide_eq_false_iff_not]
        omega
      by_cases hlen : acc.length < MAX_POSTS_ANALYSIS
      · have hcond : ¬ (p.dateUtc < daysAgo ∧ MAX_POSTS_ANALYSIS ≤ acc.length) := by
          omega
        simp only [List.map_cons, selectLoop, hw, Bool.false_eq_true, if_false,
          if_pos hlen, extractPostsLoop, if_neg hcond]
        rw [ih]
        simp
      · have hcond : p.dateUtc < daysAgo ∧ MAX_POSTS_ANALYSIS ≤ acc.length :=
          ⟨by omega, by omega⟩
        simp only [List.map_cons, selectLoop, hw, Bool.false_eq_true, if_false,
          if_neg hlen, extractPostsLoop, if_pos hcond, List.append_nil]

/-- Claim C2 is refuted by proving its negation: there is no
time-descending input of dated posts (raw posts always carry a
publication date, and their normalized documents carry the same date)
on which, with the same days_ago cutoff, the analysis selector over
the normalized documents picks a different subsequence than the
extraction-pass loop. -/
theorem c2_counterexample :
    ¬ ∃ (username : String) (T daysAgo : Int) (raws : List RawPost),
        List.Pairwise (fun a b => b.dateUtc ≤ a.dateUtc) raws ∧
        selectedPosts (raws.map (postDoc username T)) daysAgo ≠
          extractPostsLoop username T daysAgo 0 raws := by
  rintro ⟨username, T, daysAgo, raws, _, hne⟩
  apply hne
  rw [selectedPosts, selectLoop_map_postDoc username T daysAgo raws []]
  simp

/-- Claim C2 amended: the extraction pass's post-selection loop and
the analysis pass's selector ARE exactly symmetric.  For every
time-descending input in which every post has a publication date,
evaluated against the same days_ago cutoff, the two loops select the
same subsequence: the analysis selector on the normalized documents
returns exactly the normalized documents of the extraction-selected
posts. -/
theorem c2_amended (username : String) (T daysAgo : Int) (raws : List RawPost)
    (_hsorted : List.Pairwise (fun a b => b.dateUtc ≤ a.dateUtc) raws) :
    selectedPosts (raws.map (postDoc username T)) daysAgo =
      extractPostsLoop username T daysAgo 0 raws := by
  rw [selectedPosts, selectLoop_map_postDoc username T daysAgo raws []]
  simp

/-- Witness for c2_amended at a concrete sorted input. -/
theorem c2_amended_witness :
    List.Pairwise (fun a b => b.dateUtc ≤ a.dateUtc) c2raws ∧
    selectedPosts (c2raws.map (postDoc "alice" 0)) 60 =
      extractPostsLoop "alice" 0 60 0 c2raws :=
  ⟨by decide, c2_amended "alice" 0 60 c2raws (by decide)⟩

/-- Claim C3 counterexample: the account lookup succeeds, the posts
stream fails partway (after one in-window post), and a story is
available; the summary keeps the gathered post, but its stories list
is empty — the stories subsection is not attempted, so the rest of the
extraction pass does not proceed as the claim states. -/
theorem c3_counterexample :
    c3profile.stories ≠ [] ∧
    (getAndSave (some c3profile) 1000000).posts ≠ [] ∧
    (getAndSave (some c3profile) 1000000).stories = [] :=
  ⟨by decide, by decide, by decide⟩

/-- Claim C3 amended: when the account lookup succeeds but the posts
stream fails after its yielded items without the selection loop having
hit its break, the posts gathered so far are kept in the summary, but
the failure propagates to the pass-level handler rather than being
treated as zero results for the posts subsection only: the stories
subsection is never attempted and the summary's stories list stays
empty. -/
theorem c3_amended (profile : RawProfile) (extractionDate : Int)
    (herr : profile.postsErr = true)
    (hnb : extractBreaks (extractionDate - timedeltaDays MAX_DAYS_ANALYSIS) 0
      profile.posts = false) :
    getAndSave (some profile) extractionDate =
      { account := some (accountDocOf profile extractionDate)
        posts := extractPostsLoop profile.username extractionDate
          (extractionDate - timedeltaDays MAX_DAYS_ANALYSIS) 0 profile.posts
        stories := [] } := by
  simp [getAndSave, herr, hnb]

/-- Witness for c3_amended at the concrete C3 profile. -/
theorem c3_amended_witness :
    c3profile.postsErr = true ∧
    extractBreaks (1000000 - timedeltaDays MAX_DAYS_ANALYSIS) 0
      c3profile.posts = false ∧
    getAndSave (some c3profile) 1000000 =
      { account := some (accountDocOf c3profile 1000000)
        posts := extractPostsLoop c3profile.username 1000000
          (1000000 - timedeltaDays MAX_DAYS_ANALYSIS) 0 c3profile.posts
        stories := [] } :=
  ⟨rfl, by decide, c3_amended c3profile 1000000 rfl (by decide)⟩

/-- The comment-embedding loop never grows past MAX_COMMENTS_ANALYSIS
when started within the cap. -/
theorem commentsLoop_length_le :
    ∀ (cs : List RawComment) (acc : List CommentDoc),
      acc.length ≤ MAX_COMMENTS_ANALYSIS →
      (commentsLoop acc cs).length ≤ MAX_COMMENTS_ANALYSIS := by
  intro cs
  induction cs with
  | nil => intro acc h; simpa [commentsLoop] using h
  | cons c cs ih =>
    intro acc h
    by_cases hc : MAX_COMMENTS_ANALYSIS ≤ acc.length
    · simpa [commentsLoop, if_pos hc] using h
    · simp only [commentsLoop, if_neg hc]
      exact ih (acc ++ [commentDocOf c]) (by simp; omega)

/-- Every document selected by the extraction-pass loop is the
normalized document of some raw post. -/
theorem extractPostsLoop_mem (username : String) (T daysAgo : Int) :
    ∀ (raws : List RawPost) (added : Nat) (q : StoredPost),
      q ∈ extractPostsLoop username T daysAgo added raws →
      ∃ r, q = postDoc username T r := by
  intro raws
  induction raws with
  | nil => intro added q h; simp [extractPostsLoop] at h
  | cons p raws ih =>
    intro added q h
    by_cases hcond : p.dateUtc < daysAgo ∧ MAX_POSTS_ANALYSIS ≤ added
    · simp [extractPostsLoop, if_pos hcond] at h
    · simp only [extractPostsLoop, if_neg hcond, List.mem_cons] at h
      rcases h with rfl | h
      · exact ⟨p, rfl⟩
      · exact ih (added + 1) q h

/-- The summary's post list is exactly what the extraction loop
selects, in both the recovered and the propagated-failure branch. -/
theorem getAndSave_posts (profile : RawProfile) (T : Int) :
    (getAndSave (some profile) T).posts =
      extractPostsLoop profile.username T
        (T - timedeltaDays MAX_DAYS_ANALYSIS) 0 profile.posts := by
  simp only [getAndSave]
  split <;> rfl

/-- Claim C5: every post document in the extraction summary — each of
which is exactly the document persisted by the upsert at source lines
121-123 — carries at most MAX_IMAGES_POST_PROMPT images and at most
MAX_COMMENTS_ANALYSIS embedded comments, regardless of how many
images or comments the raw post contains. -/
theorem c5_caps (profileResult : Option RawProfile) (extractionDate : Int)
    (q : StoredPost)
    (hq : q ∈ (getAndSave profileResult extractionDate).posts) :
    q.images.length ≤ MAX_IMAGES_POST_PROMPT ∧
    q.comments.length ≤ MAX_COMMENTS_ANALYSIS := by
  rcases profileResult with _ | profile
  · simp [getAndSave] at hq
  · rw [getAndSave_posts] at hq
    obtain ⟨r, rfl⟩ :=
      extractPostsLoop_mem profile.username extractionDate _ profile.posts 0 _ hq
    constructor
    · show ((buildImages r).take MAX_IMAGES_POST_PROMPT).length ≤ _
      rw [List.length_take]
      exact Nat.min_le_left _ _
    · exact commentsLoop_length_le r.commentsYielded [] (by simp)

/-- Witness for c5_caps: the oversized post's stored document is in
the summary and satisfies both caps. -/
theorem c5_caps_witness :
    postDoc "alice" 1000000 c5raw ∈ (getAndSave (some c5profile) 1000000).posts ∧
    ((postDoc "alice" 1000000 c5raw).images.length ≤ MAX_IMAGES_POST_PROMPT ∧
      (postDoc "alice" 1000000 c5raw).comments.length ≤ MAX_COMMENTS_ANALYSIS) :=
  ⟨by decide, c5_caps (some c5profile) 1000000 _ (by decide)⟩

/-- The download loop is the filterMap of the fetch oracle, prefixed
by its accumulator. -/
theorem downloadLoop_eq (fetch : String → Option String) :
    ∀ (urls localPaths : List String),
      downloadLoop fetch localPaths urls =
        localPaths ++ urls.filterMap fetch := by
  intro urls
  induction urls with
  | nil => intro localPaths; simp [downloadLoop]
  | cons u urls ih =>
    intro localPaths
    cases hu : fetch u with
    | none => simp [downloadLoop, hu, ih, List.filterMap_cons]
    | some path => simp [downloadLoop, hu, ih, List.filterMap_cons]

/-- Successes and failures of the fetch oracle partition the url
list. -/
theorem filterMap_length_add (fetch : String → Option String) :
    ∀ (urls : List String),
      (urls.filterMap fetch).length +
        (urls.filter (fun u => (fetch u).isNone)).length = urls.length := by
  intro urls
  induction urls with
  | nil => simp
  | cons u urls ih =>
    cases hu : fetch u with
    | none =>
      simp [List.filterMap_cons, hu, List.filter_cons]
      omega
    | some v =>
      simp [List.filterMap_cons, hu, List.filter_cons]
      omega

/-- Claim C6: for any list of image references and any fetch
behavior, download_images returns exactly the successfully fetched
handles — the filterMap of the fetch oracle, so handles appear in the
original relative order with failed references omitted rather than
replaced, and a failure on one reference does not abort the rest;
hence with K references of which F fail, exactly K − F handles are
returned. -/
theorem c6_download_images (fetch : String → Option String)
    (image_urls : List String) :
    download_images fetch image_urls = image_urls.filterMap fetch ∧
    (download_images fetch image_urls).length =
      image_urls.length -
        (image_urls.filter (fun u => (fetch u).isNone)).length := by
  have h := downloadLoop_eq fetch image_urls []
  have h2 := filterMap_length_add fetch image_urls
  constructor
  · simpa [download_images] using h
  · rw [download_images, h, List.nil_append]
    omega

/-- The content loop is the total map of the per-post entry over the
selected posts, prefixed by its accumulator. -/
theorem contentLoop_eq_map (gen : String → List String → Except String String)
    (fetch : String → Option String) :
    ∀ (posts : List StoredPost) (report : List ContentEntry),
      contentLoop gen fetch report posts =
        report ++ posts.map (contentEntryOf gen fetch) := by
  intro posts
  induction posts with
  | nil => intro report; simp [contentLoop]
  | cons p posts ih =>
    intro report
    simp [contentLoop, ih]

/-- Claim C4: in every analysis run that completes (account document
present), the report's content_level list is exactly one entry per
post chosen by the selector — the post id plus either the completion
suggestion text or the error marker for that post — so its length
always equals the selector's output length; a completion failure on
one post never aborts the loop over the remaining posts, the entry map
being total over the selection. -/
theorem c4_content_level (gen : String → List String → Except String String)
    (fetch : String → Option String) (analyzedUsername : String)
    (analysisDate : Int) (store : Store) (acct : AccountDoc)
    (hacct : store.account = some acct) :
    ∃ rep, analyze gen fetch analyzedUsername analysisDate store =
        Except.ok rep ∧
      rep.contentLevel =
        (selectedPosts store.allPosts (daysAgoOf analysisDate)).map
          (contentEntryOf gen fetch) ∧
      rep.contentLevel.length =
        (selectedPosts store.allPosts (daysAgoOf analysisDate)).length := by
  simp only [analyze, hacct]
  refine ⟨_, rfl, ?_, ?_⟩
  · simp [contentLoop_eq_map]
  · simp [contentLoop_eq_map]

/-- Witness for c4_content_level at a concrete store, with the
completion service failing on every call. -/
theorem c4_content_level_witness :
    c4store.account = some sampleAccount ∧
    ∃ rep, analyze genBoom fetchNone "alice" 1000000 c4store =
        Except.ok rep ∧
      rep.contentLevel =
        (selectedPosts c4store.allPosts (daysAgoOf 1000000)).map
          (contentEntryOf genBoom fetchNone) ∧
      rep.contentLevel.length =
        (selectedPosts c4store.allPosts (daysAgoOf 1000000)).length :=
  ⟨rfl, c4_content_level genBoom fetchNone "alice" 1000000 c4store
    sampleAccount rfl⟩

/-- Claim C8 evaluated at its failing input: with no account document
in the store the analysis pass does not return a no-data report — it
terminates with the uncaught AttributeError raised when the account
prompt dereferences the missing account (source line 226). -/
theorem c8_no_account_crash :
    analyze genOkay fetchNone "ghost" 0 emptyStore =
      Except.error "AttributeError: NoneType object has no attribute get" :=
  rfl

/-- Claim C9: in every analysis run that completes, the comment-level
completion call is made if and only if at least one comment exists
across the selected posts' embedded comment lists: with zero comments
the tier is skipped and the report's comment_level field stays null,
and with at least one comment the field holds exactly the completion
result (or its error marker) for the capped flattened comment list. -/
theorem c9_comment_tier (gen : String → List String → Except String String)
    (fetch : String → Option String) (analyzedUsername : String)
    (analysisDate : Int) (store : Store) (acct : AccountDoc)
    (hacct : store.account = some acct) :
    ∃ rep, analyze gen fetch analyzedUsername analysisDate store =
        Except.ok rep ∧
      (rep.commentLevel = none ↔
        allCommentTexts (selectedPosts store.allPosts
          (daysAgoOf analysisDate)) = []) ∧
      (allCommentTexts (selectedPosts store.allPosts
          (daysAgoOf analysisDate)) ≠ [] →
        rep.commentLevel = some (tierResult (gen
          (commentPromptText ((allCommentTexts (selectedPosts store.allPosts
            (daysAgoOf analysisDate))).take MAX_COMMENTS_ANALYSIS)) []))) := by
  simp only [analyze, hacct]
  refine ⟨_, rfl, ?_, ?_⟩
  · by_cases h : allCommentTexts (selectedPosts store.allPosts
        (daysAgoOf analysisDate)) = []
    · simp [h]
    · simp [h]
  · intro h
    simp [h]

/-- Witness for c9_comment_tier at a concrete store whose single
selected post carries one comment. -/
theorem c9_comment_tier_witness :
    c4store.account = some sampleAccount ∧
    ∃ rep, analyze genOkay fetchNone "alice" 1000000 c4store =
        Except.ok rep ∧
      (rep.commentLevel = none ↔
        allCommentTexts (selectedPosts c4store.allPosts
          (daysAgoOf 1000000)) = []) ∧
      (allCommentTexts (selectedPosts c4store.allPosts
          (daysAgoOf 1000000)) ≠ [] →
        rep.commentLevel = some (tierResult (genOkay
          (commentPromptText ((allCommentTexts (selectedPosts c4store.allPosts
            (daysAgoOf 1000000))).take MAX_COMMENTS_ANALYSIS)) []))) :=
  ⟨rfl, c9_comment_tier genOkay fetchNone "alice" 1000000 c4store
    sampleAccount rfl⟩

/-- Claim C7 evaluated at its failing input: on a run whose single
selected post holds one image, with every fetch succeeding and the
pass completing normally, the two temporary files materialized — one
for the account prompt and one for the post prompt — both still exist
when analyze_suggest_and_save_instagram finishes: no handle is ever
released on any exit path. -/
theorem c7_handles_leak :
    (analyzeFS okAll 1000000 c4store { counter := 0, files := [] }).snd =
      Except.ok () ∧
    ((analyzeFS okAll 1000000 c4store { counter := 0, files := [] }).fst).files =
      [0, 1] :=
  ⟨rfl, rfl⟩

end Pipeline
